import Mathlib

/-!
Verification development for the ParseGuard backend authentication and
ownership-scoping core.  The definitions below are a shallow embedding of
the Rust sources: `services/auth_service.rs`, `middleware/auth.rs`,
`db/repository/compliance_repository.rs`, `db/repository/document_repository.rs`,
`api/auth.rs`, `api/compliance.rs` and `error.rs`.  External crypto crates
(jsonwebtoken, bcrypt) are modelled from the specification, as marked on the
relevant definitions.
-/

/-! ### String primitives

Rust string operations used by the middleware, modelled over `List Char`.
-/

/-- Rust `str::strip_prefix`: remove the prefix if present, else `none`. -/
def stripPfx : List Char → List Char → Option (List Char)
  | [], s => some s
  | _ :: _, [] => none
  | p :: ps, c :: cs => if p = c then stripPfx ps cs else none

/-- Auxiliary for `splitOnChar`, accumulating the current piece reversed. -/
def splitOnCharAux (sep : Char) : List Char → List Char → List (List Char)
  | [], acc => [acc.reverse]
  | c :: cs, acc =>
    if c = sep then acc.reverse :: splitOnCharAux sep cs []
    else splitOnCharAux sep cs (c :: acc)

/-- Rust `str::split(sep)`: split at every separator, keeping empty pieces. -/
def splitOnChar (sep : Char) (s : List Char) : List (List Char) :=
  splitOnCharAux sep s []

/-- Whitespace as trimmed by Rust `str::trim` (ASCII fragment). -/
def isWsChar (c : Char) : Bool :=
  c = ' ' || c = '\t' || c = '\n' || c = '\r'

/-- Rust `str::trim`: drop whitespace from both ends. -/
def trimCL (s : List Char) : List Char :=
  ((s.dropWhile isWsChar).reverse.dropWhile isWsChar).reverse

/-! ### Token service (`services/auth_service.rs`) -/

/-- JWT claim set, from `models/user.rs` `Claims`. -/
structure Claims where
  sub : String
  email : String
  exp : Nat
  iat : Nat
deriving DecidableEq

/-- Modelled from the spec: the signature a correct signer produces over a
claim set with a given symmetric secret (jsonwebtoken is an external crate;
the spec describes an unforgeable MAC, idealised here as the pair of key and
payload). -/
structure JwtSig where
  key : String
  payload : Claims
deriving DecidableEq

/-- A self-contained signed token: claim set plus a signature field that a
forger may set freely. -/
structure JwtToken where
  claims : Claims
  sig : JwtSig
deriving DecidableEq

/-- Modelled from the spec: `jsonwebtoken::encode` produces the claims
together with the correct signature under the secret. -/
def jwtEncode (secret : String) (c : Claims) : JwtToken :=
  { claims := c, sig := { key := secret, payload := c } }

/-- Modelled from the spec: `jsonwebtoken::decode` checks the signature
against the secret, then checks `exp > now`; any failure collapses to a
single rejection. -/
def jwtDecode (secret : String) (now : Nat) (t : JwtToken) : Option Claims :=
  if t.sig = { key := secret, payload := t.claims } && t.claims.exp > now
  then some t.claims else none

/-- `AuthService::generate_token`: claims with `sub = user_id`,
`email`, `iat = now`, `exp = now + Duration::hours(24)`, signed encoding. -/
def generate_token (secret : String) (user_id : String) (email : String)
    (now : Nat) : JwtToken :=
  let expires_at := now + 24 * 3600
  jwtEncode secret
    { sub := user_id, email := email, exp := expires_at, iat := now }

/-- `AuthService::validate_token`: decode with the shared secret and default
validation. -/
def validate_token (secret : String) (now : Nat) (t : JwtToken) : Option Claims :=
  jwtDecode secret now t

/-! ### Credential hasher (`services/auth_service.rs`, bcrypt) -/

/-- bcrypt `DEFAULT_COST`. -/
def DEFAULT_COST : Nat := 12

/-- Modelled from the spec: the digest of the one-way function on
(password, salt, cost); collisions have negligible probability, idealised
as absent. -/
structure BcryptDigest where
  password : String
  salt : Nat
  cost : Nat
deriving DecidableEq

/-- A bcrypt hash string: encodes cost, salt and digest. -/
structure BcryptHash where
  cost : Nat
  salt : Nat
  digest : BcryptDigest
deriving DecidableEq

/-- Modelled from the spec: `bcrypt::hash` with a per-call random salt,
supplied here as an explicit parameter. -/
def bcryptHash (cost : Nat) (salt : Nat) (password : String) : BcryptHash :=
  { cost := cost, salt := salt
    digest := { password := password, salt := salt, cost := cost } }

/-- Modelled from the spec: `bcrypt::verify` recomputes the digest with the
salt and cost stored in the hash and compares. -/
def bcryptVerify (password : String) (h : BcryptHash) : Bool :=
  h.digest = { password := password, salt := h.salt, cost := h.cost }

/-- `AuthService::hash_password`: bcrypt at `DEFAULT_COST`. -/
def hash_password (password : String) (salt : Nat) : BcryptHash :=
  bcryptHash DEFAULT_COST salt password

/-- `AuthService::verify_password`. -/
def verify_password (password : String) (h : BcryptHash) : Bool :=
  bcryptVerify password h

/-! ### Application errors (`error.rs`) -/

/-- `AppError` variants reachable from the modelled paths. -/
inductive AppError where
  | Auth (msg : String)
  | Validation (msg : String)
  | NotFound (msg : String)
  | Internal (msg : String)
  | Jwt (detail : String)
deriving DecidableEq

/-- The thiserror `Display` strings of `AppError`. -/
def appErrorDisplay : AppError → String
  | .Auth msg => "Authentication error: " ++ msg
  | .Validation msg => "Validation error: " ++ msg
  | .NotFound msg => "Resource not found: " ++ msg
  | .Internal msg => "Internal server error: " ++ msg
  | .Jwt detail => "JWT error: " ++ detail

/-- JSON body of an error response: the `error` and `message` fields. -/
structure ErrorBody where
  error : String
  message : String
deriving DecidableEq

/-- An HTTP error response: status code plus JSON body. -/
structure HttpErrorResponse where
  status : Nat
  body : ErrorBody
deriving DecidableEq

/-- `AppError::into_response`: status and the safe-for-client `error` field,
with `message` set to the Display string of the error. -/
def intoResponse (e : AppError) : HttpErrorResponse :=
  let pair : Nat × String :=
    match e with
    | .Auth _ => (401, "Authentication failed")
    | .Validation msg => (400, msg)
    | .NotFound msg => (404, msg)
    | .Internal _ => (500, "Internal server error")
    | .Jwt _ => (401, "Invalid token")
  { status := pair.1, body := { error := pair.2, message := appErrorDisplay e } }

/-! ### Identity extraction middleware (`middleware/auth.rs`) -/

/-- An HTTP header value: `to_str()` fails on non-visible-ASCII bytes,
modelled by the `invalid` constructor. -/
inductive HeaderVal where
  | invalid
  | valid (s : List Char)
deriving DecidableEq

/-- Rust `HeaderValue::to_str().ok()`. -/
def headerToStr : HeaderVal → Option (List Char)
  | .invalid => none
  | .valid s => some s

/-- The parts of an inbound request the middleware reads or could mutate. -/
structure HttpRequest where
  authorization : Option HeaderVal
  cookie : Option HeaderVal
  body : String
deriving DecidableEq

/-- Step 1 of `auth_middleware`: the Authorization header, as a string, with
the prefix `Bearer ` stripped; `none` when the header is absent, not a valid
string, or lacks the prefix. -/
def bearerToken (req : HttpRequest) : Option (List Char) :=
  match req.authorization with
  | some h => (headerToStr h).bind (stripPfx "Bearer ".data)
  | none => none

/-- Step 2 of `auth_middleware`: scan the semicolon-separated cookie pairs
for the first one that trims and splits on `=` into exactly
`auth_token` and a value. -/
def cookieAuthToken (cookieStr : List Char) : Option (List Char) :=
  (splitOnChar ';' cookieStr).findSome? fun s =>
    let parts := splitOnChar '=' (trimCL s)
    if parts.length = 2 && parts.head? = some "auth_token".data
    then parts.get? 1 else none

/-- The candidate token: Authorization header first, cookie as fallback. -/
def getToken (req : HttpRequest) : Option (List Char) :=
  (bearerToken req).orElse fun _ =>
    (req.cookie.bind headerToStr).bind cookieAuthToken

/-- Result of running the middleware around a handler: the response or
error, whether the wrapped handler ran, and the log lines written. -/
structure MwOutcome (ρ : Type) where
  result : Except AppError ρ
  handlerRan : Bool
  logs : List String

/-- `auth_middleware`: extract a candidate token (header, then cookie), fail
with the missing-token auth error when there is none, otherwise validate it
and either run the handler on the unchanged request or fail, logging the raw
token at debug level on the validation-failure path.  `validateTok` stands
for `AuthService::validate_token` on the wire encoding of the token. -/
def auth_middleware {ρ : Type} (validateTok : List Char → Except String Claims)
    (req : HttpRequest) (next : Claims → HttpRequest → ρ) : MwOutcome ρ :=
  match getToken req with
  | none =>
    { result := .error (.Auth "Missing authentication token")
      handlerRan := false
      logs := ["❌ Auth Failed: No token found in Authorization header or Cookie"] }
  | some tok =>
    match validateTok tok with
    | .ok claims =>
      { result := .ok (next claims req)
        handlerRan := true
        logs := ["🚀 AuthService started", "Validating token"] }
    | .error e =>
      { result := .error (.Jwt e)
        handlerRan := false
        logs := ["🚀 AuthService started", "Validating token",
                 "❌ Auth Failed: Token validation failed: " ++
                   appErrorDisplay (.Jwt e),
                 "Failed token: " ++ String.mk tok] }

/-! ### Compliance repository (`db/repository/compliance_repository.rs`)

A table is the list of rows in physical order; timestamps are Unix seconds.
-/

/-- A row of `compliance_items`, from `models/compliance.rs`. -/
structure ComplianceItem where
  id : Nat
  user_id : Nat
  title : String
  description : Option String
  risk_level : String
  status : String
  due_date : Option Int
  created_at : Int
  updated_at : Int
deriving DecidableEq

/-- `UpdateComplianceDto`: every field optional. -/
structure UpdateComplianceDto where
  title : Option String
  description : Option String
  risk_level : Option String
  status : Option String
  due_date : Option Int
deriving DecidableEq

/-- True when no field of the update payload is set. -/
def UpdateComplianceDto.isEmpty (dto : UpdateComplianceDto) : Bool :=
  dto.title.isNone && dto.description.isNone && dto.risk_level.isNone &&
    dto.status.isNone && dto.due_date.isNone

namespace ComplianceRepository

/-- The SQL filter `id = $1 AND user_id = $2` used by every
single-row operation. -/
def rowMatch (id uid : Nat) (r : ComplianceItem) : Bool :=
  r.id = id && r.user_id = uid

/-- `find_by_id`: `SELECT ... WHERE id = $1 AND user_id = $2`,
`fetch_optional`. -/
def find_by_id (id uid : Nat) (table : List ComplianceItem) :
    Option ComplianceItem :=
  table.find? (rowMatch id uid)

/-- Effect of the generated `SET` clauses on one row: each field present in
the payload is assigned, and `updated_at = NOW()` is always appended. -/
def applyUpdate (dto : UpdateComplianceDto) (now : Int) (r : ComplianceItem) :
    ComplianceItem :=
  { r with
    title := dto.title.getD r.title
    description := match dto.description with
      | some d => some d
      | none => r.description
    risk_level := dto.risk_level.getD r.risk_level
    status := dto.status.getD r.status
    due_date := match dto.due_date with
      | some d => some d
      | none => r.due_date
    updated_at := now }

/-- `update`: with an empty payload, return the existing row without issuing
a statement; otherwise run the dynamically built
`UPDATE ... WHERE id = $1 AND user_id = $2 RETURNING ...`, which rewrites
every matching row and returns the updated row or `none`. -/
def update (id uid : Nat) (dto : UpdateComplianceDto) (now : Int)
    (table : List ComplianceItem) :
    List ComplianceItem × Option ComplianceItem :=
  if dto.isEmpty then (table, find_by_id id uid table)
  else
    (table.map fun r => if rowMatch id uid r then applyUpdate dto now r else r,
     (table.find? (rowMatch id uid)).map (applyUpdate dto now))

/-- `delete`: `DELETE ... WHERE id = $1 AND user_id = $2`; returns the new
table and whether `rows_affected() > 0`. -/
def delete (id uid : Nat) (table : List ComplianceItem) :
    List ComplianceItem × Bool :=
  (table.filter fun r => !(rowMatch id uid r), table.any (rowMatch id uid))

/-- Insert a row into a list already sorted by `created_at` descending,
after every row whose key is strictly greater (so rows with equal keys keep
their physical order). -/
def insertDesc (a : ComplianceItem) : List ComplianceItem → List ComplianceItem
  | [] => [a]
  | b :: bs =>
    if a.created_at < b.created_at then b :: insertDesc a bs else a :: b :: bs

/-- Stable sort by `created_at` descending. -/
def sortDesc : List ComplianceItem → List ComplianceItem
  | [] => []
  | a :: as => insertDesc a (sortDesc as)

/-- `find_by_user`: `SELECT ... WHERE user_id = $1 ORDER BY created_at DESC`.
The `ORDER BY` has no secondary key, so the engine is free to emit rows with
equal `created_at` in any order; the model realises the query as a stable
sort over the physical row order, one of the admissible behaviours. -/
def find_by_user (uid : Nat) (table : List ComplianceItem) :
    List ComplianceItem :=
  sortDesc (table.filter fun r => r.user_id = uid)

end ComplianceRepository

/-! ### Compliance handlers (`api/compliance.rs`) -/

/-- `get_compliance`: repository lookup, `None` mapped to `NotFound`. -/
def get_compliance (uid id : Nat) (table : List ComplianceItem) :
    Except AppError ComplianceItem :=
  match ComplianceRepository.find_by_id id uid table with
  | some item => .ok item
  | none => .error (.NotFound "Compliance item not found")

/-- `update_compliance`: repository update, `None` mapped to `NotFound`;
returns the new table alongside the response. -/
def update_compliance (uid id : Nat) (dto : UpdateComplianceDto) (now : Int)
    (table : List ComplianceItem) :
    List ComplianceItem × Except AppError ComplianceItem :=
  let out := ComplianceRepository.update id uid dto now table
  (out.1,
   match out.2 with
   | some item => .ok item
   | none => .error (.NotFound "Compliance item not found"))

/-- `delete_compliance`: 204 on deletion, `NotFound` otherwise. -/
def delete_compliance (uid id : Nat) (table : List ComplianceItem) :
    List ComplianceItem × Except AppError Nat :=
  let out := ComplianceRepository.delete id uid table
  (out.1,
   if out.2 then .ok 204 else .error (.NotFound "Compliance item not found"))

/-! ### Document repository (`db/repository/document_repository.rs`) -/

/-- A row of `documents`, from `models/document.rs`. -/
structure Document where
  id : Nat
  user_id : Nat
  filename : String
  file_path : String
  file_size : Int
  mime_type : String
  extracted_text : Option String
  ai_analysis : Option String
  uploaded_at : Int
deriving DecidableEq

/-- `UpdateDocumentDto`: both fields optional. -/
structure UpdateDocumentDto where
  extracted_text : Option String
  ai_analysis : Option String
deriving DecidableEq

namespace DocumentRepository

/-- The SQL filter `id = $1 AND user_id = $2`. -/
def rowMatch (id uid : Nat) (r : Document) : Bool :=
  r.id = id && r.user_id = uid

/-- `find_by_id`. -/
def find_by_id (id uid : Nat) (table : List Document) : Option Document :=
  table.find? (rowMatch id uid)

/-- Effect of `SET extracted_text = COALESCE($3, extracted_text),
ai_analysis = COALESCE($4, ai_analysis)` on one row. -/
def applyUpdate (dto : UpdateDocumentDto) (r : Document) : Document :=
  { r with
    extracted_text := match dto.extracted_text with
      | some t => some t
      | none => r.extracted_text
    ai_analysis := match dto.ai_analysis with
      | some a => some a
      | none => r.ai_analysis }

/-- `update`: a single `UPDATE ... WHERE id = $1 AND user_id = $2
RETURNING ...` with COALESCE merges, run unconditionally. -/
def update (id uid : Nat) (dto : UpdateDocumentDto) (table : List Document) :
    List Document × Option Document :=
  (table.map fun r => if rowMatch id uid r then applyUpdate dto r else r,
   (table.find? (rowMatch id uid)).map (applyUpdate dto))

end DocumentRepository

/-! ### Login (`api/auth.rs`) -/

/-- A row of `users`, from `models/user.rs`. -/
structure UserRec where
  id : Nat
  email : String
  password_hash : BcryptHash
  full_name : String
deriving DecidableEq

/-- `UserRepository::find_by_email`. -/
def find_by_email (users : List UserRec) (email : String) : Option UserRec :=
  users.find? fun u => u.email = email

/-- `LoginDto`. -/
structure LoginDto where
  email : String
  password : String
deriving DecidableEq

/-- `login`: validate the DTO (the validator crate is abstracted as the
`validate` argument), look the user up by email, verify the password, and
on success issue a token; unknown email and wrong password produce the same
`Auth` error. -/
def login (validate : LoginDto → Except String Unit) (users : List UserRec)
    (secret : String) (now : Nat) (dto : LoginDto) :
    Except AppError (UserRec × JwtToken) :=
  match validate dto with
  | .error e => .error (.Validation e)
  | .ok _ =>
    match find_by_email users dto.email with
    | none => .error (.Auth "Invalid email or password")
    | some user =>
      if verify_password dto.password user.password_hash
      then .ok (user, generate_token secret (toString user.id) user.email now)
      else .error (.Auth "Invalid email or password")

/-- The counterexample row for the partial-update frame claims. -/
def sampleItem : ComplianceItem :=
  { id := 1, user_id := 7, title := "Old title", description := none,
    risk_level := "low", status := "pending", due_date := none,
    created_at := 0, updated_at := 0 }

/-- First tied row for the ordering counterexample. -/
def itemA : ComplianceItem :=
  { id := 1, user_id := 7, title := "A", description := none,
    risk_level := "low", status := "pending", due_date := none,
    created_at := 5, updated_at := 0 }

/-- Second tied row for the ordering counterexample, with a larger id. -/
def itemB : ComplianceItem :=
  { id := 2, user_id := 7, title := "B", description := none,
    risk_level := "low", status := "pending", due_date := none,
    created_at := 5, updated_at := 0 }

/-! ### Claim theorems -/

/-- C2: issuing a token and immediately verifying it succeeds and returns
claims whose sub and email match the inputs and whose exp minus iat equals
the fixed lifetime of 86400 seconds. -/
theorem c2_issue_then_verify_roundtrip (secret sub email : String) (now : Nat) :
    validate_token secret now (generate_token secret sub email now) =
      some { sub := sub, email := email, exp := now + 24 * 3600, iat := now }
    ∧ (now + 24 * 3600) - now = 86400 := by
  constructor
  · unfold validate_token jwtDecode generate_token jwtEncode
    simp
  · omega

/-- C3: a token whose exp claim lies in the past at verification time is
rejected, even when its signature is correct under the secret. -/
theorem c3_expired_token_rejected (secret : String) (now : Nat) (t : JwtToken)
    (h : t.claims.exp < now) : validate_token secret now t = none := by
  unfold validate_token jwtDecode
  have hb : decide (t.claims.exp > now) = false := by
    simp
    omega
  simp [hb]

theorem c3_expired_token_rejected_witness :
    (generate_token "s" "u" "e" 0).claims.exp < 100000
    ∧ validate_token "s" 100000 (generate_token "s" "u" "e" 0) = none :=
  ⟨by decide, c3_expired_token_rejected "s" 100000 (generate_token "s" "u" "e" 0) (by decide)⟩

/-- C5: verifying a password against its own hash succeeds, verifying a
different password fails, and two hashes of the same password under
different salts are different strings. -/
theorem c5_hash_verify_roundtrip (p q : String) (s₁ s₂ : Nat)
    (hpq : p ≠ q) (hs : s₁ ≠ s₂) :
    verify_password p (hash_password p s₁) = true
    ∧ verify_password q (hash_password p s₁) = false
    ∧ hash_password p s₁ ≠ hash_password p s₂ := by
  refine ⟨by simp [verify_password, bcryptVerify, hash_password, bcryptHash], ?_, ?_⟩
  · simp [verify_password, bcryptVerify, hash_password, bcryptHash]
    intro habs
    exact absurd habs hpq
  · simp [hash_password, bcryptHash]
    intro habs
    exact absurd habs hs

theorem c5_hash_verify_roundtrip_witness :
    verify_password "Secret123!" (hash_password "Secret123!" 0) = true
    ∧ verify_password "Other" (hash_password "Secret123!" 0) = false
    ∧ hash_password "Secret123!" 0 ≠ hash_password "Secret123!" 1 :=
  c5_hash_verify_roundtrip "Secret123!" "Other" 0 1 (by decide) (by decide)

/-- C7: the login failure for an unknown email and the login failure for a
known email with a wrong password are the same error value, so their HTTP
responses carry the same 401 status and identical client-visible fields. -/
theorem c7_login_failures_indistinguishable
    (validate : LoginDto → Except String Unit) (users : List UserRec)
    (secret : String) (now : Nat) (dto₁ dto₂ : LoginDto) (u : UserRec)
    (h1 : validate dto₁ = .ok ()) (h2 : validate dto₂ = .ok ())
    (h3 : find_by_email users dto₁.email = none)
    (h4 : find_by_email users dto₂.email = some u)
    (h5 : verify_password dto₂.password u.password_hash = false) :
    login validate users secret now dto₁ =
        .error (.Auth "Invalid email or password")
    ∧ login validate users secret now dto₂ =
        .error (.Auth "Invalid email or password")
    ∧ intoResponse (.Auth "Invalid email or password") =
        { status := 401
          body := { error := "Authentication failed"
                    message := "Authentication error: Invalid email or password" } } := by
  refine ⟨?_, ?_, by decide⟩
  · unfold login
    rw [h1, h3]
  · unfold login
    rw [h2, h4]
    simp [h5]

theorem c7_login_failures_indistinguishable_witness :
    login (fun _ => .ok ())
        [{ id := 1, email := "alice@example.com",
           password_hash := hash_password "pw" 0, full_name := "Alice A" }]
        "sec" 0 { email := "bob@example.com", password := "x" } =
      .error (.Auth "Invalid email or password")
    ∧ login (fun _ => .ok ())
        [{ id := 1, email := "alice@example.com",
           password_hash := hash_password "pw" 0, full_name := "Alice A" }]
        "sec" 0 { email := "alice@example.com", password := "wrong" } =
      .error (.Auth "Invalid email or password")
    ∧ intoResponse (.Auth "Invalid email or password") =
        { status := 401
          body := { error := "Authentication failed"
                    message := "Authentication error: Invalid email or password" } } :=
  c7_login_failures_indistinguishable (fun _ => .ok ())
    [{ id := 1, email := "alice@example.com",
       password_hash := hash_password "pw" 0, full_name := "Alice A" }]
    "sec" 0 { email := "bob@example.com", password := "x" }
    { email := "alice@example.com", password := "wrong" }
    { id := 1, email := "alice@example.com",
      password_hash := hash_password "pw" 0, full_name := "Alice A" }
    rfl rfl (by decide) (by decide) (by decide)

/-- C8: evaluating the middleware at a request whose bearer token fails
validation shows the raw token value written to the log output on the
failure path, contradicting the no-token-logging requirement. -/
theorem c8_raw_token_logged_on_failure :
    (auth_middleware (fun _ => .error "InvalidSignature")
        { authorization := some (.valid "Bearer secrettok123".data)
          cookie := none, body := "b" }
        (fun _ _ => (0 : Nat))).logs =
      ["🚀 AuthService started", "Validating token",
       "❌ Auth Failed: Token validation failed: JWT error: InvalidSignature",
       "Failed token: secrettok123"] := by
  decide

/-- Mapping a conditional rewrite over rows none of which match the filter
leaves the table unchanged. -/
theorem map_if_no_match {α : Type} (p : α → Bool) (f : α → α)
    (t : List α) (h : ∀ x ∈ t, p x = false) :
    (t.map fun x => if p x then f x else x) = t := by
  induction t with
  | nil => rfl
  | cons a t ih =>
    have ha : p a = false := h a (by simp)
    simp [ha]
    exact ih fun x hx => h x (by simp [hx])

/-- C1: a read-one, update or delete invoked with subject B on a resource
owned by A with B distinct from A returns NotFound and mutates zero rows,
because each operation filters by id and owner in one query. -/
theorem c1_cross_tenant_not_found (table : List ComplianceItem)
    (r : ComplianceItem) (B : Nat) (dto : UpdateComplianceDto) (now : Int)
    (hr : r ∈ table)
    (huniq : ∀ r₂ ∈ table, r₂.id = r.id → r₂ = r)
    (hB : B ≠ r.user_id) :
    get_compliance B r.id table = .error (.NotFound "Compliance item not found")
    ∧ ComplianceRepository.update r.id B dto now table = (table, none)
    ∧ ComplianceRepository.delete r.id B table = (table, false)
    ∧ (update_compliance B r.id dto now table).2 =
        .error (.NotFound "Compliance item not found")
    ∧ (delete_compliance B r.id table).2 =
        .error (.NotFound "Compliance item not found") := by
  have hmatch : ∀ x ∈ table, ComplianceRepository.rowMatch r.id B x = false := by
    intro x hx
    unfold ComplianceRepository.rowMatch
    by_cases hid : x.id = r.id
    · have hxr : x = r := huniq x hx hid
      subst hxr
      simp [hid]
      intro habs
      exact absurd habs.symm hB
    · simp [hid]
  have hfind : table.find? (ComplianceRepository.rowMatch r.id B) = none :=
    List.find?_eq_none.mpr fun x hx => by simp [hmatch x hx]
  have hupd : ComplianceRepository.update r.id B dto now table = (table, none) := by
    by_cases he : dto.isEmpty
    · simp [ComplianceRepository.update, he, ComplianceRepository.find_by_id, hfind]
    · simp [ComplianceRepository.update, he, hfind,
        map_if_no_match (ComplianceRepository.rowMatch r.id B)
          (ComplianceRepository.applyUpdate dto now) table hmatch]
  have hdel : ComplianceRepository.delete r.id B table = (table, false) := by
    unfold ComplianceRepository.delete
    have h1 : List.filter (fun x => !ComplianceRepository.rowMatch r.id B x) table
        = table :=
      List.filter_eq_self.mpr fun x hx => by simp [hmatch x hx]
    have h2 : table.any (ComplianceRepository.rowMatch r.id B) = false := by
      rw [List.any_eq_false]
      intro x hx
      simp [hmatch x hx]
    rw [h1, h2]
  refine ⟨?_, hupd, hdel, ?_, ?_⟩
  · simp [get_compliance, ComplianceRepository.find_by_id, hfind]
  · simp [update_compliance, hupd]
  · simp [delete_compliance, hdel]

theorem c1_cross_tenant_not_found_witness :
    get_compliance 9 1
        [{ id := 1, user_id := 7, title := "Item", description := none,
           risk_level := "low", status := "pending", due_date := none,
           created_at := 0, updated_at := 0 }] =
      .error (.NotFound "Compliance item not found")
    ∧ ComplianceRepository.update 1 9
        { title := some "Hacked", description := none, risk_level := none,
          status := none, due_date := none } 5
        [{ id := 1, user_id := 7, title := "Item", description := none,
           risk_level := "low", status := "pending", due_date := none,
           created_at := 0, updated_at := 0 }] =
      ([{ id := 1, user_id := 7, title := "Item", description := none,
          risk_level := "low", status := "pending", due_date := none,
          created_at := 0, updated_at := 0 }], none)
    ∧ ComplianceRepository.delete 1 9
        [{ id := 1, user_id := 7, title := "Item", description := none,
           risk_level := "low", status := "pending", due_date := none,
           created_at := 0, updated_at := 0 }] =
      ([{ id := 1, user_id := 7, title := "Item", description := none,
          risk_level := "low", status := "pending", due_date := none,
          created_at := 0, updated_at := 0 }], false)
    ∧ (update_compliance 9 1
        { title := some "Hacked", description := none, risk_level := none,
          status := none, due_date := none } 5
        [{ id := 1, user_id := 7, title := "Item", description := none,
           risk_level := "low", status := "pending", due_date := none,
           created_at := 0, updated_at := 0 }]).2 =
      .error (.NotFound "Compliance item not found")
    ∧ (delete_compliance 9 1
        [{ id := 1, user_id := 7, title := "Item", description := none,
           risk_level := "low", status := "pending", due_date := none,
           created_at := 0, updated_at := 0 }]).2 =
      .error (.NotFound "Compliance item not found") :=
  c1_cross_tenant_not_found
    [{ id := 1, user_id := 7, title := "Item", description := none,
       risk_level := "low", status := "pending", due_date := none,
       created_at := 0, updated_at := 0 }]
    { id := 1, user_id := 7, title := "Item", description := none,
      risk_level := "low", status := "pending", due_date := none,
      created_at := 0, updated_at := 0 }
    9
    { title := some "Hacked", description := none, risk_level := none,
      status := none, due_date := none }
    5 (by decide) (by decide) (by decide)

/-- C6 counterexample: a compliance update whose payload sets only the
title also changes the stored updated_at column, so a field absent from the
payload is not byte-for-byte unchanged. -/
theorem c6_updated_at_changed_cex :
    (ComplianceRepository.update 1 7
        { title := some "New title", description := none, risk_level := none,
          status := none, due_date := none } 5 [sampleItem]).2 =
      some { sampleItem with title := "New title", updated_at := 5 }
    ∧ ComplianceItem.updated_at { sampleItem with title := "New title", updated_at := 5 }
        ≠ sampleItem.updated_at := by
  decide

/-- C6 amended: only the fields present in the payload are changed, except
that a non-empty compliance update also sets updated_at to the statement
time; an update with no fields set is a success path that returns the
current row and leaves the table untouched. -/
theorem c6_partial_update_frame (dto : UpdateComplianceDto) (now : Int)
    (r : ComplianceItem) (ddto : UpdateDocumentDto) (d : Document)
    (id uid : Nat) (table : List ComplianceItem) (dtable : List Document) :
    (dto.title = none → (ComplianceRepository.applyUpdate dto now r).title = r.title)
    ∧ (dto.description = none →
        (ComplianceRepository.applyUpdate dto now r).description = r.description)
    ∧ (dto.risk_level = none →
        (ComplianceRepository.applyUpdate dto now r).risk_level = r.risk_level)
    ∧ (dto.status = none →
        (ComplianceRepository.applyUpdate dto now r).status = r.status)
    ∧ (dto.due_date = none →
        (ComplianceRepository.applyUpdate dto now r).due_date = r.due_date)
    ∧ (ComplianceRepository.applyUpdate dto now r).id = r.id
    ∧ (ComplianceRepository.applyUpdate dto now r).user_id = r.user_id
    ∧ (ComplianceRepository.applyUpdate dto now r).created_at = r.created_at
    ∧ (ComplianceRepository.applyUpdate dto now r).updated_at = now
    ∧ (dto.isEmpty = true →
        ComplianceRepository.update id uid dto now table =
          (table, ComplianceRepository.find_by_id id uid table))
    ∧ (ddto.extracted_text = none →
        (DocumentRepository.applyUpdate ddto d).extracted_text = d.extracted_text)
    ∧ (ddto.ai_analysis = none →
        (DocumentRepository.applyUpdate ddto d).ai_analysis = d.ai_analysis)
    ∧ (DocumentRepository.applyUpdate ddto d).id = d.id
    ∧ (DocumentRepository.applyUpdate ddto d).user_id = d.user_id
    ∧ (DocumentRepository.applyUpdate ddto d).filename = d.filename
    ∧ (DocumentRepository.applyUpdate ddto d).file_path = d.file_path
    ∧ (DocumentRepository.applyUpdate ddto d).file_size = d.file_size
    ∧ (DocumentRepository.applyUpdate ddto d).mime_type = d.mime_type
    ∧ (DocumentRepository.applyUpdate ddto d).uploaded_at = d.uploaded_at
    ∧ (ddto = { extracted_text := none, ai_analysis := none } →
        DocumentRepository.update id uid ddto dtable =
          (dtable, DocumentRepository.find_by_id id uid dtable)) := by
  refine ⟨?_, ?_, ?_, ?_, ?_, rfl, rfl, rfl, rfl, ?_, ?_, ?_,
    rfl, rfl, rfl, rfl, rfl, rfl, rfl, ?_⟩
  · intro h
    simp [ComplianceRepository.applyUpdate, h]
  · intro h
    simp [ComplianceRepository.applyUpdate, h]
  · intro h
    simp [ComplianceRepository.applyUpdate, h]
  · intro h
    simp [ComplianceRepository.applyUpdate, h]
  · intro h
    simp [ComplianceRepository.applyUpdate, h]
  · intro h
    simp [ComplianceRepository.update, h]
  · intro h
    simp [DocumentRepository.applyUpdate, h]
  · intro h
    simp [DocumentRepository.applyUpdate, h]
  · intro h
    subst h
    have happ : ∀ x : Document,
        DocumentRepository.applyUpdate
          { extracted_text := none, ai_analysis := none } x = x := by
      intro x
      simp [DocumentRepository.applyUpdate]
    unfold DocumentRepository.update DocumentRepository.find_by_id
    have hmap : (dtable.map fun x =>
        if DocumentRepository.rowMatch id uid x then
          DocumentRepository.applyUpdate
            { extracted_text := none, ai_analysis := none } x
        else x) = dtable := by
      have : (fun x => if DocumentRepository.rowMatch id uid x then
          DocumentRepository.applyUpdate
            { extracted_text := none, ai_analysis := none } x
        else x) = fun x => x := by
        funext x
        simp [happ x]
      rw [this]
      exact List.map_id dtable
    rw [hmap]
    cases hfind : dtable.find? (DocumentRepository.rowMatch id uid) with
    | none => simp
    | some x => simp [happ x]

theorem c6_partial_update_frame_witness :
    (ComplianceRepository.applyUpdate
        { title := none, description := none, risk_level := none,
          status := none, due_date := none } 5 sampleItem).title =
      sampleItem.title
    ∧ (ComplianceRepository.applyUpdate
        { title := none, description := none, risk_level := none,
          status := none, due_date := none } 5 sampleItem).updated_at = 5
    ∧ ComplianceRepository.update 1 7
        { title := none, description := none, risk_level := none,
          status := none, due_date := none } 5 [sampleItem] =
      ([sampleItem], ComplianceRepository.find_by_id 1 7 [sampleItem])
    ∧ DocumentRepository.update 1 7
        { extracted_text := none, ai_analysis := none } [] =
      ([], DocumentRepository.find_by_id 1 7 []) := by
  obtain ⟨h1, h2, h3, h4, h5, h6, h7, h8, h9, h10, h11, h12, h13, h14,
      h15, h16, h17, h18, h19, h20⟩ :=
    c6_partial_update_frame
      { title := none, description := none, risk_level := none,
        status := none, due_date := none } 5 sampleItem
      { extracted_text := none, ai_analysis := none }
      { id := 1, user_id := 7, filename := "f", file_path := "p",
        file_size := 0, mime_type := "m", extracted_text := none,
        ai_analysis := none, uploaded_at := 0 }
      1 7 [sampleItem] []
  exact ⟨h1 rfl, h9, h10 rfl, h20 rfl⟩

/-- Inserting into the sorted list is a permutation of consing. -/
theorem insertDesc_perm (a : ComplianceItem) (l : List ComplianceItem) :
    (ComplianceRepository.insertDesc a l).Perm (a :: l) := by
  induction l with
  | nil => exact List.Perm.refl _
  | cons b bs ih =>
    unfold ComplianceRepository.insertDesc
    by_cases hc : a.created_at < b.created_at
    · simp [hc]
      exact (ih.cons b).trans (List.Perm.swap a b bs)
    · simp [hc]

/-- The stable sort permutes its input. -/
theorem sortDesc_perm (l : List ComplianceItem) :
    (ComplianceRepository.sortDesc l).Perm l := by
  induction l with
  | nil => exact List.Perm.refl _
  | cons a as ih =>
    unfold ComplianceRepository.sortDesc
    exact (insertDesc_perm a _).trans (ih.cons a)

/-- Inserting preserves the sorted-descending invariant. -/
theorem insertDesc_pairwise (a : ComplianceItem) (l : List ComplianceItem)
    (h : l.Pairwise fun x y => y.created_at ≤ x.created_at) :
    (ComplianceRepository.insertDesc a l).Pairwise
      fun x y => y.created_at ≤ x.created_at := by
  induction l with
  | nil => simp [ComplianceRepository.insertDesc]
  | cons b bs ih =>
    rw [List.pairwise_cons] at h
    obtain ⟨hb, hbs⟩ := h
    unfold ComplianceRepository.insertDesc
    by_cases hc : a.created_at < b.created_at
    · simp [hc]
      refine ⟨?_, ih hbs⟩
      intro x hx
      rcases List.mem_cons.mp ((insertDesc_perm a bs).mem_iff.mp hx) with hxa | hxbs
      · subst hxa
        exact le_of_lt hc
      · exact hb x hxbs
    · simp [hc]
      refine ⟨⟨le_of_not_lt hc, ?_⟩, hb, hbs⟩
      intro x hxbs
      exact le_trans (hb x hxbs) (le_of_not_lt hc)

/-- The stable sort produces a list sorted by created_at descending. -/
theorem sortDesc_pairwise (l : List ComplianceItem) :
    (ComplianceRepository.sortDesc l).Pairwise
      fun x y => y.created_at ≤ x.created_at := by
  induction l with
  | nil => simp [ComplianceRepository.sortDesc]
  | cons a as ih =>
    unfold ComplianceRepository.sortDesc
    exact insertDesc_pairwise a _ ih

/-- C9 amended: the list operation returns exactly the rows whose owner is
the identity subject, in an order that is non-increasing in creation time;
the query states no tie-break, so the order of rows with equal creation
time is not determined. -/
theorem c9_list_owned_sorted (uid : Nat) (table : List ComplianceItem) :
    (ComplianceRepository.find_by_user uid table).Perm
        (table.filter fun r => r.user_id = uid)
    ∧ (ComplianceRepository.find_by_user uid table).Pairwise
        fun x y => y.created_at ≤ x.created_at := by
  unfold ComplianceRepository.find_by_user
  exact ⟨sortDesc_perm _, sortDesc_pairwise _⟩

/-- C9 counterexample: on two rows with equal creation time the query can
return the larger id first, so ties are not broken by id ascending, and two
physical orders of the same stored rows give different outputs, so the
returned order is not determined by the stored state. -/
theorem c9_tie_order_cex :
    ComplianceRepository.find_by_user 7 [itemB, itemA] = [itemB, itemA]
    ∧ itemA.id < itemB.id
    ∧ itemA.created_at = itemB.created_at
    ∧ ComplianceRepository.find_by_user 7 [itemB, itemA]
        ≠ ComplianceRepository.find_by_user 7 [itemA, itemB]
    ∧ List.Perm [itemB, itemA] [itemA, itemB] := by
  refine ⟨by decide, by decide, by decide, by decide, ?_⟩
  exact List.Perm.swap itemA itemB []

/-- Stripping a prefix from that same prefix plus a tail yields the tail. -/
theorem stripPfx_self_append (p s : List Char) : stripPfx p (p ++ s) = some s := by
  induction p with
  | nil => rfl
  | cons c cs ih => simp [stripPfx, ih]

/-- Splitting a separator-free piece leaves one piece. -/
theorem splitOnCharAux_sepFree (sep : Char) (s acc : List Char)
    (h : ∀ c ∈ s, c ≠ sep) :
    splitOnCharAux sep s acc = [acc.reverse ++ s] := by
  induction s generalizing acc with
  | nil => simp [splitOnCharAux]
  | cons c cs ih =>
    have hc : c ≠ sep := h c (by simp)
    rw [splitOnCharAux]
    simp [hc]
    rw [ih (c :: acc) fun x hx => h x (by simp [hx])]
    simp

/-- Rust `split` on a string without the separator returns the string. -/
theorem splitOnChar_sepFree (sep : Char) (s : List Char)
    (h : ∀ c ∈ s, c ≠ sep) : splitOnChar sep s = [s] := by
  unfold splitOnChar
  rw [splitOnCharAux_sepFree sep s [] h]
  simp

/-- Splitting a string with exactly one separator gives the two pieces. -/
theorem splitOnCharAux_single (sep : Char) (a b acc : List Char)
    (ha : ∀ c ∈ a, c ≠ sep) (hb : ∀ c ∈ b, c ≠ sep) :
    splitOnCharAux sep (a ++ sep :: b) acc = [acc.reverse ++ a, b] := by
  induction a generalizing acc with
  | nil =>
    rw [List.nil_append, splitOnCharAux]
    simp
    rw [splitOnCharAux_sepFree sep b [] hb]
    simp
  | cons c cs ih =>
    have hc : c ≠ sep := ha c (by simp)
    rw [List.cons_append, splitOnCharAux]
    simp [hc]
    rw [ih (c :: acc) fun x hx => ha x (by simp [hx])]
    simp

/-- Rust `split` on a string with exactly one separator. -/
theorem splitOnChar_single (sep : Char) (a b : List Char)
    (ha : ∀ c ∈ a, c ≠ sep) (hb : ∀ c ∈ b, c ≠ sep) :
    splitOnChar sep (a ++ sep :: b) = [a, b] := by
  unfold splitOnChar
  rw [splitOnCharAux_single sep a b [] ha hb]
  simp

/-- dropWhile is the identity when the head does not satisfy the predicate. -/
theorem dropWhile_all_false {α : Type} (p : α → Bool) (s : List α)
    (h : ∀ c ∈ s, p c = false) : s.dropWhile p = s := by
  cases s with
  | nil => rfl
  | cons c cs => simp [List.dropWhile, h c (by simp)]

/-- Rust `trim` is the identity on whitespace-free strings. -/
theorem trim_no_ws (s : List Char) (h : ∀ c ∈ s, isWsChar c = false) :
    trimCL s = s := by
  unfold trimCL
  rw [dropWhile_all_false _ _ h]
  rw [dropWhile_all_false _ _ fun c hc => h c (List.mem_reverse.mp hc)]
  exact List.reverse_reverse s

/-- A cookie header that is exactly `auth_token=` followed by a plain value
parses to that value. -/
theorem cookieAuthToken_exact (v : List Char)
    (hv : ∀ c ∈ v, c ≠ '=' ∧ c ≠ ';' ∧ isWsChar c = false) :
    cookieAuthToken ("auth_token=".data ++ v) = some v := by
  unfold cookieAuthToken
  have hlitSemi : ∀ c ∈ "auth_token=".data, c ≠ ';' := by decide
  have hsemi : ∀ c ∈ "auth_token=".data ++ v, c ≠ ';' := by
    intro c hc
    rcases List.mem_append.mp hc with h1 | h2
    · exact hlitSemi c h1
    · exact (hv c h2).2.1
  rw [splitOnChar_sepFree ';' _ hsemi]
  rw [List.findSome?_cons]
  have hlitWs : ∀ c ∈ "auth_token=".data, isWsChar c = false := by decide
  have hws : ∀ c ∈ "auth_token=".data ++ v, isWsChar c = false := by
    intro c hc
    rcases List.mem_append.mp hc with h1 | h2
    · exact hlitWs c h1
    · exact (hv c h2).2.2
  rw [trim_no_ws _ hws]
  have hshape : "auth_token=".data ++ v = "auth_token".data ++ '=' :: v := rfl
  have hlitEq : ∀ c ∈ "auth_token".data, c ≠ '=' := by decide
  rw [hshape, splitOnChar_single '=' "auth_token".data v hlitEq
    fun c hc => (hv c hc).1]
  simp

/-- C4: the middleware obtains the candidate token with header-first
precedence: a Bearer header token is the one verified regardless of any
cookie; with no Authorization header a well-formed auth_token cookie value
is the token; when neither channel yields a token the request fails with
the missing-credential error and the wrapped handler does not run. -/
theorem c4_token_source_precedence {ρ : Type}
    (validateTok : List Char → Except String Claims)
    (next : Claims → HttpRequest → ρ) :
    (∀ (t : List Char) (ck : Option HeaderVal) (body : String),
       getToken { authorization := some (.valid ("Bearer ".data ++ t)),
                  cookie := ck, body := body } = some t)
    ∧ (∀ (t : List Char) (ck : Option HeaderVal) (body : String) (c : Claims),
         validateTok t = .ok c →
         (auth_middleware validateTok
             { authorization := some (.valid ("Bearer ".data ++ t)),
               cookie := ck, body := body } next).result =
           .ok (next c { authorization := some (.valid ("Bearer ".data ++ t)),
                         cookie := ck, body := body }))
    ∧ (∀ (v : List Char) (body : String),
         (∀ c ∈ v, c ≠ '=' ∧ c ≠ ';' ∧ isWsChar c = false) →
         getToken { authorization := none,
                    cookie := some (.valid ("auth_token=".data ++ v)),
                    body := body } = some v)
    ∧ (∀ req : HttpRequest, getToken req = none →
         (auth_middleware validateTok req next).result =
             .error (.Auth "Missing authentication token")
         ∧ (auth_middleware validateTok req next).handlerRan = false) := by
  have hhead : ∀ (t : List Char) (ck : Option HeaderVal) (body : String),
      getToken { authorization := some (.valid ("Bearer ".data ++ t)),
                 cookie := ck, body := body } = some t := by
    intro t ck body
    have hb : bearerToken { authorization := some (.valid ("Bearer ".data ++ t)),
                            cookie := ck, body := body } = some t :=
      stripPfx_self_append "Bearer ".data t
    unfold getToken
    rw [hb]
    rfl
  refine ⟨hhead, ?_, ?_, ?_⟩
  · intro t ck body c hc
    unfold auth_middleware
    rw [hhead t ck body]
    simp [hc]
  · intro v body hv
    exact cookieAuthToken_exact v hv
  · intro req hreq
    unfold auth_middleware
    rw [hreq]
    exact ⟨rfl, rfl⟩

theorem c4_token_source_precedence_witness :
    getToken { authorization := some (.valid ("Bearer ".data ++ "tok1".data)),
               cookie := some (.valid "auth_token=zzz".data), body := "b" } =
      some "tok1".data
    ∧ (auth_middleware
        (fun _ => .ok { sub := "u", email := "e", exp := 90000, iat := 0 })
        { authorization := some (.valid ("Bearer ".data ++ "tok1".data)),
          cookie := some (.valid "auth_token=zzz".data), body := "b" }
        (fun _ _ => (0 : Nat))).result = .ok 0
    ∧ getToken { authorization := none,
                 cookie := some (.valid ("auth_token=".data ++ "v1".data)),
                 body := "b" } = some "v1".data
    ∧ (auth_middleware
        (fun _ => .ok { sub := "u", email := "e", exp := 90000, iat := 0 })
        { authorization := none, cookie := none, body := "b" }
        (fun _ _ => (0 : Nat))).handlerRan = false := by
  obtain ⟨p1, p2, p3, p4⟩ := c4_token_source_precedence
    (fun _ => .ok { sub := "u", email := "e", exp := 90000, iat := 0 })
    (fun _ _ => (0 : Nat))
  exact ⟨p1 "tok1".data (some (.valid "auth_token=zzz".data)) "b",
    p2 "tok1".data (some (.valid "auth_token=zzz".data)) "b"
      { sub := "u", email := "e", exp := 90000, iat := 0 } rfl,
    p3 "v1".data "b" (by decide),
    (p4 { authorization := none, cookie := none, body := "b" } (by decide)).2⟩

/-- C10: an Authorization header without the exact Bearer prefix, or with a
value that is not a valid string, is not a hard failure: extraction falls
through to the auth_token cookie, and the missing-credential error occurs
only when the cookie also yields nothing. -/
theorem c10_malformed_header_falls_through {ρ : Type}
    (validateTok : List Char → Except String Claims)
    (next : Claims → HttpRequest → ρ)
    (hv : HeaderVal) (ck : Option HeaderVal) (body : String)
    (hmal : (headerToStr hv).bind (stripPfx "Bearer ".data) = none) :
    getToken { authorization := some hv, cookie := ck, body := body } =
      (ck.bind headerToStr).bind cookieAuthToken
    ∧ ((ck.bind headerToStr).bind cookieAuthToken = none →
        (auth_middleware validateTok
            { authorization := some hv, cookie := ck, body := body }
            next).result = .error (.Auth "Missing authentication token")
        ∧ (auth_middleware validateTok
            { authorization := some hv, cookie := ck, body := body }
            next).handlerRan = false) := by
  have hget : getToken { authorization := some hv, cookie := ck, body := body } =
      (ck.bind headerToStr).bind cookieAuthToken := by
    unfold getToken bearerToken
    simp [hmal, Option.orElse]
  refine ⟨hget, ?_⟩
  intro hck
  unfold auth_middleware
  rw [hget, hck]
  exact ⟨rfl, rfl⟩

theorem c10_malformed_header_falls_through_witness :
    getToken { authorization := some (.valid "Token abc".data),
               cookie := some (.valid "auth_token=ctok".data), body := "b" } =
      ((some (HeaderVal.valid "auth_token=ctok".data)).bind headerToStr).bind
        cookieAuthToken
    ∧ (auth_middleware (fun _ => .error "e")
        { authorization := some (.valid "Token abc".data), cookie := none,
          body := "b" } (fun _ _ => (0 : Nat))).handlerRan = false := by
  refine ⟨?_, ?_⟩
  · exact (c10_malformed_header_falls_through (fun _ => .error "e")
      (fun _ _ => (0 : Nat)) (.valid "Token abc".data)
      (some (.valid "auth_token=ctok".data)) "b" (by decide)).1
  · exact ((c10_malformed_header_falls_through (fun _ => .error "e")
      (fun _ _ => (0 : Nat)) (.valid "Token abc".data) none "b"
      (by decide)).2 (by decide)).2
